import Mathlib

/-!
# Verification of the `mgt-search-results` component

Shallow embedding of the request/response caching, thumbnail batch
augmentation, pagination and cache-key construction logic of
`packages/mgt-components/src/components/mgt-search-results/mgt-search-results.ts`.

Conventions used throughout:
* JavaScript numbers that are used as integers (timestamps, page counters,
  sizes) are modelled as `Int`; `Math.floor(a / b)` is `Int.fdiv`.
* JavaScript `undefined`/`null` string fields are `Option String`.
* A JS value used in boolean position is "falsy" for `0` / `""` /
  `undefined`; the embedding makes this explicit at each use site.
* Fallible operations (network calls, `JSON.parse`) are modelled as
  `Except Unit` values supplied by the environment; `try { … } catch {}`
  becomes a `match` on those values.
-/

/-- A thumbnail attached to a search-hit resource (`interface Thumbnail`). -/
structure Thumbnail where
  url : Option String
deriving DecidableEq, Repr

/-- The fields of a search-hit resource read by the component:
`@odata.type`, `size`, `webUrl`, `id`, `parentReference.siteId`,
`parentReference.driveId`, and the (mutable) `thumbnail` attached by
batch augmentation. -/
structure Resource where
  odataType : String
  size : Int
  webUrl : Option String
  id : String
  parentSiteId : String
  parentDriveId : String
  thumbnail : Option Thumbnail
deriving DecidableEq, Repr

/-- One search hit (`SearchHit`), wrapping a resource. -/
structure SearchHit where
  resource : Resource
deriving DecidableEq, Repr

/-- The `content` of one batch sub-response: `value.content.url` for
drive items, `value.content.thumbnailWebUrl` for list items. -/
structure BatchContent where
  url : Option String
  thumbnailWebUrl : Option String
deriving DecidableEq, Repr

/-- `hitsContainers[i]` of a search response: hits plus paging metadata. -/
structure SearchHitsContainer where
  hits : List SearchHit
  total : Int
  moreResultsAvailable : Bool
deriving DecidableEq, Repr

/-- One element of `response.value`. -/
structure ResponseValue where
  hitsContainers : List SearchHitsContainer
deriving DecidableEq, Repr

/-- The deserialized Graph search payload. -/
structure Response where
  value : List ResponseValue
deriving DecidableEq, Repr

/-- `response.value[0].hitsContainers[0]`, when present. -/
def Response.firstContainer? (r : Response) : Option SearchHitsContainer :=
  r.value.head?.bind fun v => v.hitsContainers.head?

/-- `response.value[0].hitsContainers[0].hits`, when present. -/
def Response.firstHits? (r : Response) : Option (List SearchHit) :=
  r.firstContainer?.map fun c => c.hits

/-- Replace the hits list of `response.value[0].hitsContainers[0]`
(the in-place mutation performed by `augmentResponse`). -/
def Response.setFirstHits (r : Response) (hits : List SearchHit) : Response :=
  match r.value with
  | [] => r
  | v0 :: vs =>
    match v0.hitsContainers with
    | [] => r
    | c0 :: cs => ⟨⟨{ c0 with hits := hits } :: cs⟩ :: vs⟩

/-- JS `String.prototype.endsWith`, evaluated structurally on the
character list (core `String.endsWith` is defined by well-founded
recursion and does not reduce inside proofs). -/
def jsEndsWith (s suffix : String) : Bool :=
  suffix.data.isSuffixOf s.data

/-- `element.resource['@odata.type'] == '#microsoft.graph.listItem'`. -/
def isListItem (r : Resource) : Bool :=
  r.odataType == "#microsoft.graph.listItem"

/-- The eligibility test of the thumbnail loop in `loadState`:
`(element.resource.size > 0 || element.resource.webUrl?.endsWith('.aspx')) &&
 (element.resource['@odata.type'] == '#microsoft.graph.driveItem' ||
  element.resource['@odata.type'] == '#microsoft.graph.listItem')`. -/
def eligibleForThumbnail (r : Resource) : Bool :=
  (decide (r.size > 0) || (r.webUrl.map (fun u => jsEndsWith u ".aspx")).getD false) &&
  (r.odataType == "#microsoft.graph.driveItem" || r.odataType == "#microsoft.graph.listItem")

/-- The `for` loop of `loadState` that fills the two thumbnail batches:
for each index `i` of the primary hits, an eligible list item is added to
the beta batch (`/sites/{siteId}/pages/{id}`) and any other eligible hit
to the v1.0 batch (`/drives/{driveId}/items/{id}/thumbnails/0/medium`),
each request keyed by the hit index `i`.  Returns (v1.0 batch, beta batch). -/
def buildThumbnailBatches (hits : List SearchHit) : List (Nat × String) × List (Nat × String) :=
  (hits.enum.filterMap fun p =>
    if eligibleForThumbnail p.2.resource && !isListItem p.2.resource then
      some (p.1, "/drives/" ++ p.2.resource.parentDriveId ++ "/items/" ++ p.2.resource.id
        ++ "/thumbnails/0/medium")
    else none,
   hits.enum.filterMap fun p =>
    if eligibleForThumbnail p.2.resource && isListItem p.2.resource then
      some (p.1, "/sites/" ++ p.2.resource.parentSiteId ++ "/pages/" ++ p.2.resource.id)
    else none)

/-- The indices for which a dependent thumbnail request is issued
(the keys of both batches). -/
def requestedIndices (hits : List SearchHit) : List Nat :=
  ((buildThumbnailBatches hits).1.map Prod.fst) ++ ((buildThumbnailBatches hits).2.map Prod.fst)

/-- One iteration of `augmentResponse`: `result = hits[key];
result.resource.thumbnail = { url: … }`, choosing `thumbnailWebUrl` for
list items and `url` otherwise.  Out-of-range keys leave the list
unchanged (the real map only ever carries issued indices). -/
def setThumbnail (hits : List SearchHit) (k : Nat) (c : BatchContent) : List SearchHit :=
  match hits[k]? with
  | none => hits
  | some hit =>
    hits.set k { hit with resource := { hit.resource with
      thumbnail := some ⟨if isListItem hit.resource then c.thumbnailWebUrl else c.url⟩ } }

/-- The hit produced by applying one batch sub-response to a hit. -/
def applyThumb (h : SearchHit) (c : BatchContent) : SearchHit :=
  { h with resource := { h.resource with
      thumbnail := some ⟨if isListItem h.resource then c.thumbnailWebUrl else c.url⟩ } }

/-- `augmentResponse(thumbnailResponse)`: when the batch response map is
non-empty, attach a thumbnail to the hit at each keyed index. -/
def augmentResponse (m : List (Nat × BatchContent)) (hits : List SearchHit) : List SearchHit :=
  if m.isEmpty then hits
  else m.foldl (fun hs kc => setThumbnail hs kc.1 kc.2) hits

/-- The `try { augmentResponse(await thumbnailBatch.executeAll());
augmentResponse(await thumbnailBatchBeta.executeAll()); } catch {}` block:
the v1.0 batch is awaited and merged first; a throw of either `executeAll`
is swallowed, keeping whatever mutations already happened. -/
def tryBatches (hits : List SearchHit)
    (v1Res betaRes : Except Unit (List (Nat × BatchContent))) : List SearchHit :=
  match v1Res with
  | .error _ => hits
  | .ok m1 =>
    let hits1 := augmentResponse m1 hits
    match betaRes with
    | .error _ => hits1
    | .ok m2 => augmentResponse m2 hits1

/-! ## Event trace of the thumbnail phase (for the temporal claim) -/

/-- Observable events of the thumbnail phase: a batch's `executeAll`
promise resolving, and one hit mutation
(`result.resource.thumbnail = thumbnail`). -/
inductive BatchEv where
  | resolveV1 : BatchEv
  | resolveBeta : BatchEv
  | mutate (i : Nat) : BatchEv
deriving DecidableEq, Repr

/-- `augmentResponse` together with the mutation events it performs, in
program order (one per in-range key of a non-empty batch response). -/
def augmentResponseEv (m : List (Nat × BatchContent)) (hits : List SearchHit) :
    List SearchHit × List BatchEv :=
  if m.isEmpty then (hits, [])
  else m.foldl (fun acc kc =>
    (setThumbnail acc.1 kc.1 kc.2,
     acc.2 ++ if kc.1 < acc.1.length then [BatchEv.mutate kc.1] else [])) (hits, [])

/-- The thumbnail-phase `try` block with its event trace: the code awaits
`thumbnailBatch.executeAll()` (event `resolveV1`), merges it, then awaits
`thumbnailBatchBeta.executeAll()` (event `resolveBeta`) and merges that;
a throw truncates the trace at that point and is swallowed. -/
def tryBatchesTrace (hits : List SearchHit)
    (v1Res betaRes : Except Unit (List (Nat × BatchContent))) :
    List SearchHit × List BatchEv :=
  match v1Res with
  | .error _ => (hits, [])
  | .ok m1 =>
    let r1 := augmentResponseEv m1 hits
    match betaRes with
    | .error _ => (r1.1, BatchEv.resolveV1 :: r1.2)
    | .ok m2 =>
      let r2 := augmentResponseEv m2 r1.1
      (r2.1, BatchEv.resolveV1 :: r1.2 ++ BatchEv.resolveBeta :: r2.2)

/-- Formalisation of "no hit is mutated while either batch is still
pending": in the trace, every resolve event precedes every mutation.
Scanning left to right, once a mutation has been seen no further resolve
event may occur (and mutations may only follow resolves). -/
def allResolvesBeforeMutations (t : List BatchEv) : Bool :=
  (t.foldl (fun (acc : Bool × Bool) e =>
    match e with
    | BatchEv.mutate _ => (acc.1, true)
    | _ => (acc.1 && !acc.2, acc.2)) (true, false)).1

/-! ## Cache configuration and `loadState` -/

/-- The fields of `CacheService.config` the component reads. -/
structure CacheConfig where
  isEnabled : Bool
  responseIsEnabled : Bool
  responseInvalidationPeriod : Int
  defaultInvalidationPeriod : Int
deriving DecidableEq, Repr

/-- `getResponseInvalidationTime`: the component period, `||`-falling
back to the global response period, then the global default (a JS `||`
chain on numbers; `0`/`undefined` are falsy, `undefined` modelled as 0). -/
def getResponseInvalidationTime (currentInvalidationPeriod : Int) (cfg : CacheConfig) : Int :=
  if currentInvalidationPeriod ≠ 0 then currentInvalidationPeriod
  else if cfg.responseInvalidationPeriod ≠ 0 then cfg.responseInvalidationPeriod
  else cfg.defaultInvalidationPeriod

/-- `getIsResponseCacheEnabled`. -/
def getIsResponseCacheEnabled (cfg : CacheConfig) : Bool :=
  cfg.responseIsEnabled && cfg.isEnabled

/-- `shouldRetrieveCache`. -/
def shouldRetrieveCache (cfg : CacheConfig) (cacheEnabled isRefreshing : Bool) : Bool :=
  getIsResponseCacheEnabled cfg && cacheEnabled && !isRefreshing

/-- `shouldUpdateCache`. -/
def shouldUpdateCache (cfg : CacheConfig) (cacheEnabled : Bool) : Bool :=
  getIsResponseCacheEnabled cfg && cacheEnabled

/-- A stored cache entry (`CacheResponse`): the serialized response and
the write timestamp `timeCached` added by the cache store. -/
structure CacheEntry where
  response : String
  timeCached : Int
deriving DecidableEq, Repr

/-- The component state read by `loadState`. -/
structure SearchState where
  queryString : Option String
  cacheEnabled : Bool
  isRefreshing : Bool
  cacheInvalidationPeriod : Int
  fetchThumbnail : Bool
  response : Option Response
deriving DecidableEq, Repr

/-- The environment of one `loadState` run: provider state, global cache
config, clock, the cache lookup result for the built key, `JSON.parse`
of a stored payload, and the outcomes of the primary request and the two
thumbnail batch executions. -/
structure LoadEnv where
  signedIn : Bool
  cfg : CacheConfig
  now : Int
  cached : Option CacheEntry
  parse : String → Except Unit Response
  fetch : Except Unit Response
  v1Batch : Except Unit (List (Nat × BatchContent))
  betaBatch : Except Unit (List (Nat × BatchContent))

/-- Observable outcome of one `loadState` run: the final `this.response`
and `this.error`, how many times the primary request was posted, and
whether `cache.putValue` was called. -/
structure LoadOutcome where
  response : Option Response
  error : Option Unit
  fetchCount : Nat
  cacheWritten : Bool
deriving DecidableEq, Repr

/-- The thumbnail sub-phase of the fetch path: building the batches reads
`response.value[0].hitsContainers[0].hits`, which throws (to the outer
`catch`) when the containers are missing; otherwise the two batches are
executed and merged by `tryBatches`. -/
def thumbnailPhase (r : Response) (env : LoadEnv) : Except Unit Response :=
  match r.firstHits? with
  | none => .error ()
  | some hits => .ok (r.setFirstHits (tryBatches hits env.v1Batch env.betaBatch))

/-- The cache-consultation step of `loadState`: under
`shouldRetrieveCache`, look the key up (`getValue`), and when the entry
is fresh — `getResponseInvalidationTime(this.cacheInvalidationPeriod) >
Date.now() - result.timeCached` — `JSON.parse` its payload (which may
throw). -/
def consultCache (s : SearchState) (env : LoadEnv) : Except Unit (Option Response) :=
  if shouldRetrieveCache env.cfg s.cacheEnabled s.isRefreshing then
    match (if getIsResponseCacheEnabled env.cfg then env.cached else none) with
    | some entry =>
      if getResponseInvalidationTime s.cacheInvalidationPeriod env.cfg
          > env.now - entry.timeCached then
        match env.parse entry.response with
        | .ok r => .ok (some r)
        | .error e => .error e
      else .ok none
    | none => .ok none
  else .ok none

/-- `loadState`, following the source line by line: `this.error = null`;
return unchanged unless signed in; clear the response when the query
string is falsy; otherwise run the `try` block (cache consultation, on
miss the primary POST, optional thumbnail phase, cache write), the
`catch (e) { this.error = e }`, and the final
`if (this.response) { this.error = null }`. -/
def loadState (s : SearchState) (env : LoadEnv) : LoadOutcome :=
  if !env.signedIn then
    { response := s.response, error := none, fetchCount := 0, cacheWritten := false }
  else if (s.queryString.getD "") = "" then
    { response := none, error := none, fetchCount := 0, cacheWritten := false }
  else
    match consultCache s env with
    | .error e =>
      { response := s.response
        error := if s.response.isSome then none else some e
        fetchCount := 0, cacheWritten := false }
    | .ok (some r) =>
      { response := some r, error := none, fetchCount := 0, cacheWritten := false }
    | .ok none =>
      match env.fetch with
      | .error e =>
        { response := s.response
          error := if s.response.isSome then none else some e
          fetchCount := 1, cacheWritten := false }
      | .ok r0 =>
        match (if s.fetchThumbnail then thumbnailPhase r0 env else .ok r0) with
        | .error e =>
          { response := s.response
            error := if s.response.isSome then none else some e
            fetchCount := 1, cacheWritten := false }
        | .ok r =>
          { response := some r, error := none, fetchCount := 1
            cacheWritten := shouldUpdateCache env.cfg s.cacheEnabled }

/-! ## Pagination -/

/-- `Math.ceil(a / b)` for integer `a` and positive integer `b`. -/
def ceilDiv (a b : Int) : Int := -((-a).fdiv b)

/-- The inner `getFirstPage` helper of `getActivePages`:
`medianPage = currentPage - Math.floor(pagingMax / 2) - 1`, returned when
at least `Math.floor(pagingMax / 2)`, else 0. -/
def getFirstPage (currentPage pagingMax : Int) : Int :=
  let medianPage := currentPage - pagingMax.fdiv 2 - 1
  if medianPage ≥ pagingMax.fdiv 2 then medianPage else 0

/-- The first `for` loop of `getActivePages`: starting at `i`, push
`i + 1` while `i < bound1 && i < bound2 && pages.length < maxLen`.
The fuel equals the maximum number of iterations the length guard
allows, so the loop below runs exactly as long as the source loop. -/
def pagesLoop (bound1 bound2 maxLen : Int) : Nat → Int → List Int → List Int
  | 0, _, pages => pages
  | fuel + 1, i, pages =>
    if i < bound1 ∧ i < bound2 ∧ (pages.length : Int) < maxLen then
      pagesLoop bound1 bound2 maxLen fuel (i + 1) (pages ++ [i + 1])
    else pages

/-- `getActivePages(totalResults)`: the window of page numbers rendered
by the paging footer, computed from the current page, `pagingMax`, the
page size and the total result count. -/
def getActivePages (currentPage pagingMax size totalResults : Int) : List Int :=
  let firstPage := getFirstPage currentPage pagingMax
  if firstPage + 1 > pagingMax - currentPage ∨ pagingMax = currentPage then
    pagesLoop (ceilDiv totalResults size) (pagingMax + (currentPage - 1)) (pagingMax - 2)
      (pagingMax - 2).toNat (firstPage + 1) []
  else
    (List.range (pagingMax - firstPage).toNat).map fun k => firstPage + k + 1

/-- `pagingRequired(hitsContainer)`:
`hitsContainer?.moreResultsAvailable || currentPage * size < hitsContainer?.total`
(with optional chaining, a missing container makes both disjuncts false). -/
def pagingRequired (currentPage size : Int) (c? : Option SearchHitsContainer) : Bool :=
  (c?.map (fun c => c.moreResultsAvailable)).getD false ||
  (c?.map (fun c => decide (currentPage * size < c.total))).getD false

/-- `isLastPage()`: `currentPage === Math.ceil(total / size)`, where
`total` is `this.response.value[0].hitsContainers[0].total`. -/
def isLastPage (currentPage size total : Int) : Bool :=
  currentPage = ceilDiv total size

/-- The page-control layout the footer renders: the page-number window,
whether the explicit `1` button and the back-ellipsis of
`renderFirstPage` appear, and whether the previous/next chevrons of
`renderPreviousPage` / `renderNextPage` appear. -/
structure PageLayout where
  pages : List Int
  showsExplicitFirst : Bool
  showsBackDots : Bool
  showsPrevious : Bool
  showsNext : Bool
deriving DecidableEq, Repr

/-- `renderFooter(hitsContainer)`: nothing unless `pagingRequired`;
otherwise the layout assembled from `renderPreviousPage`,
`renderFirstPage`, `renderAllPages` and `renderNextPage`. -/
def renderFooter (currentPage pagingMax size : Int) (c? : Option SearchHitsContainer) :
    Option PageLayout :=
  if pagingRequired currentPage size c? then
    match c? with
    | none => none
    | some c =>
      let pages := getActivePages currentPage pagingMax size c.total
      some
        { pages := pages
          showsExplicitFirst := !pages.any (fun p => p = 1)
          showsBackDots := !pages.any (fun p => p = 1) && decide (currentPage - pagingMax.fdiv 2 > 0)
          showsPrevious := decide (currentPage > 1)
          showsNext := !isLastPage currentPage size c.total }
  else none

/-! ## Cache key construction -/

/-- A JSON value; objects keep their fields in insertion order, exactly
as `JSON.stringify` serializes them. -/
inductive Json where
  | str (s : String) : Json
  | num (n : Int) : Json
  | bool (b : Bool) : Json
  | null : Json
  | arr (xs : List Json) : Json
  | obj (fields : List (String × Json)) : Json

/-- String escaping applied by `JSON.stringify` to the characters
occurring in this component's requests (backslash and double quote). -/
def jsEscape (s : String) : String :=
  String.mk (s.data.foldr (fun c acc =>
    if c = '\\' then '\\' :: '\\' :: acc
    else if c = '"' then '\\' :: '"' :: acc
    else c :: acc) [])

mutual

/-- `JSON.stringify` over the `Json` model, emitting object fields in
insertion order without sorting. -/
def Json.serialize : Json → String
  | .str s => "\"" ++ jsEscape s ++ "\""
  | .num n => toString n
  | .bool b => if b then "true" else "false"
  | .null => "null"
  | .arr xs => "[" ++ String.intercalate "," (Json.serializeList xs) ++ "]"
  | .obj fs => "\x7b" ++ String.intercalate "," (Json.serializeFields fs) ++ "\x7d"

/-- Serialization of the elements of a JSON array. -/
def Json.serializeList : List Json → List String
  | [] => []
  | x :: xs => x.serialize :: Json.serializeList xs

/-- Serialization of the fields of a JSON object, in order. -/
def Json.serializeFields : List (String × Json) → List String
  | [] => []
  | f :: fs => ("\"" ++ jsEscape f.1 ++ "\":" ++ f.2.serialize) :: Json.serializeFields fs

end

/-- The component state consumed by `getRequestOptions`. -/
structure RequestState where
  entityTypes : List String
  queryString : String
  queryTemplate : Option String
  currentPage : Int
  size : Int
  fields : Option (List String)
  enableTopResults : Bool
  contentSources : List String
  version : String
deriving DecidableEq, Repr

/-- `DEFAULT_FIELDS`. -/
def DEFAULT_FIELDS : List String :=
  ["webUrl", "lastModifiedBy", "lastModifiedDateTime", "summary", "displayName", "name"]

/-- `getFields()`: `DEFAULT_FIELDS.concat(this.fields)` when fields are
set, `undefined` otherwise. -/
def getFields (s : RequestState) : Option (List String) :=
  s.fields.map fun fs => DEFAULT_FIELDS ++ fs

/-- `this.from`: `(currentPage - 1) * size`. -/
def RequestState.from_ (s : RequestState) : Int :=
  (s.currentPage - 1) * s.size

/-- `getRequestOptions()` as the JSON object `JSON.stringify` sees:
fields in insertion order (`entityTypes`, `query`, `from`, `size`,
`fields`, `enableTopResults`, then `contentSources` for external items),
with `undefined`-valued fields (`from`/`size` falsy, no fields, falsy
`enableTopResults`, falsy `queryTemplate`) omitted; on the beta endpoint
`queryTemplate` is appended inside `query` after `queryString`. -/
def getRequestOptions (s : RequestState) : Json :=
  let queryFields : List (String × Json) :=
    [("queryString", Json.str s.queryString)] ++
    (if s.version = "beta" then
      match s.queryTemplate with
      | some t => if t ≠ "" then [("queryTemplate", Json.str t)] else []
      | none => []
    else [])
  Json.obj
    ([("entityTypes", Json.arr (s.entityTypes.map Json.str)),
      ("query", Json.obj queryFields)] ++
     (if s.from_ ≠ 0 then [("from", Json.num s.from_)] else []) ++
     (if s.size ≠ 0 then [("size", Json.num s.size)] else []) ++
     (match getFields s with
      | some fs => [("fields", Json.arr (fs.map Json.str))]
      | none => []) ++
     (if s.enableTopResults then [("enableTopResults", Json.bool true)] else []) ++
     (if s.entityTypes.contains "externalItem" then
       [("contentSources", Json.arr (s.contentSources.map Json.str))]
      else []))

/-- `SEARCH_ENDPOINT`. -/
def SEARCH_ENDPOINT : String := "/search/query"

/-- The cache key built in `loadState`:
`JSON.stringify({ endpoint: version + SEARCH_ENDPOINT, requestOptions })`. -/
def buildCacheKey (s : RequestState) : String :=
  Json.serialize (Json.obj
    [("endpoint", Json.str (s.version ++ SEARCH_ENDPOINT)),
     ("requestOptions", getRequestOptions s)])

/-! ## The `queryString` property setter -/

/-- The component state touched by the `queryString` setter. -/
structure QueryState where
  queryString : Option String
  currentPage : Int
deriving DecidableEq, Repr

/-- Result of an assignment to the `queryString` property. -/
structure SetterResult where
  state : QueryState
  loadingSet : Bool
  reloadTriggered : Bool
deriving DecidableEq, Repr

/-- The `queryString` setter: when the assigned value differs
(`!==`) from `_queryString`, store it, set `_currentPage = 1`, set the
loading state and request a state update; otherwise do nothing. -/
def setQueryString (st : QueryState) (value : Option String) : SetterResult :=
  if st.queryString ≠ value then
    { state := { queryString := value, currentPage := 1 }
      loadingSet := true, reloadTriggered := true }
  else
    { state := st, loadingSet := false, reloadTriggered := false }

/-! ## Concrete fixtures for witnesses and counterexamples -/

/-- A drive-item resource eligible for thumbnail enrichment. -/
def exDriveResource : Resource :=
  { odataType := "#microsoft.graph.driveItem", size := 5
    webUrl := some "https://contoso/a.docx", id := "d1"
    parentSiteId := "site0", parentDriveId := "drive0", thumbnail := none }

/-- A site resource, not a supported thumbnail kind. -/
def exSiteResource : Resource :=
  { odataType := "#microsoft.graph.site", size := 0
    webUrl := some "https://contoso", id := "s1"
    parentSiteId := "site0", parentDriveId := "drive0", thumbnail := none }

/-- A list-item resource (a `.aspx` page) eligible for thumbnail
enrichment via the beta batch. -/
def exListResource : Resource :=
  { odataType := "#microsoft.graph.listItem", size := 0
    webUrl := some "https://contoso/p.aspx", id := "l1"
    parentSiteId := "site1", parentDriveId := "drive0", thumbnail := none }

/-- The spec's example hit list: hits 0 and 1 unsupported, hit 2 a
supported drive item. -/
def exHits : List SearchHit := [⟨exSiteResource⟩, ⟨exSiteResource⟩, ⟨exDriveResource⟩]

/-- A hit list with one v1.0-batch hit and one beta-batch hit. -/
def exHits2 : List SearchHit := [⟨exDriveResource⟩, ⟨exListResource⟩]

/-- A batch sub-response for a drive item. -/
def exContent : BatchContent := ⟨some "https://thumb/medium", none⟩

/-- A batch sub-response for a list item. -/
def exContentBeta : BatchContent := ⟨none, some "https://page/thumb"⟩

/-- A cache configuration with response caching enabled. -/
def exCfg : CacheConfig := ⟨true, true, 0, 3600000⟩

/-- A cache entry written at time 80000. -/
def exEntry : CacheEntry := ⟨"payload", 80000⟩

/-- The response deserialized from the cache entry. -/
def exParsed : Response := ⟨[⟨[⟨[], 42, false⟩]⟩]⟩

/-- The response returned by the primary search request. -/
def exFetched : Response := ⟨[⟨[⟨[], 7, false⟩]⟩]⟩

/-- Component state with caching on and a non-empty query. -/
def exState : SearchState := ⟨some "q", true, false, 30000, false, none⟩

/-- Environment with a fresh cache entry (20000 ms old, period 30000). -/
def exEnv : LoadEnv :=
  ⟨true, exCfg, 100000, some exEntry, fun _ => .ok exParsed, .ok exFetched, .ok [], .ok []⟩

/-- Environment whose cache entry deserializes to a parse error. -/
def exEnvParseFail : LoadEnv := { exEnv with parse := fun _ => .error () }

/-- Component state holding a previous response, with caching off. -/
def exStateWithPrior : SearchState :=
  { exState with cacheEnabled := false, response := some exParsed }

/-- Environment with no cache entry and a failing primary request. -/
def exEnvFetchFail : LoadEnv := { exEnv with cached := none, fetch := .error () }

/-- Component state with caching off and no previous response. -/
def exStateNoCache : SearchState := { exState with cacheEnabled := false }

/-- A fetched response whose first container holds `exHits2`. -/
def exRespHits : Response := ⟨[⟨[⟨exHits2, 2, false⟩]⟩]⟩

/-- Component state with thumbnails on and caching off. -/
def exStateThumb : SearchState :=
  { exState with cacheEnabled := false, fetchThumbnail := true }

/-- Environment where the fetch succeeds with `exRespHits`, the v1.0
thumbnail batch resolves for index 0 and the beta batch throws. -/
def exEnvThumb : LoadEnv :=
  { exEnv with
    cached := none
    fetch := .ok exRespHits
    v1Batch := .ok [(0, exContent)]
    betaBatch := .error () }

/-- A request-state fixture for the cache-key builder. -/
def exRequestState : RequestState :=
  { entityTypes := ["driveItem", "listItem", "site"], queryString := "contoso"
    queryTemplate := none, currentPage := 1, size := 10, fields := none
    enableTopResults := false, contentSources := [], version := "v1.0" }

/-! # Theorems -/

/-- **C6**: for `totalResults = 95`, `pageSize = 10`, `currentPage = 5`,
`maxVisiblePages = 7` and no more-results signal, paging is required
(`5 * 10 = 50 < 95`), the computed page window is `[1 … 7]` — so it
includes page 1 explicitly and a run of pages containing page 5 — and
the footer renders both the previous-page and the next-page control
(page 5 is neither the first page nor the last page `⌈95/10⌉ = 10`). -/
theorem c6_pagination_window_95_10_5_7 :
    pagingRequired 5 10 (some ⟨[], 95, false⟩) = true ∧
    getActivePages 5 7 10 95 = [1, 2, 3, 4, 5, 6, 7] ∧
    (1 : Int) ∈ getActivePages 5 7 10 95 ∧
    (5 : Int) ∈ getActivePages 5 7 10 95 ∧
    renderFooter 5 7 10 (some ⟨[], 95, false⟩) =
      some { pages := [1, 2, 3, 4, 5, 6, 7], showsExplicitFirst := false
             showsBackDots := false, showsPrevious := true, showsNext := true } := by
  refine ⟨rfl, by decide, by decide, by decide, by decide⟩

/-- **C8**: when `currentPage = 1`, `totalResults ≤ pageSize` and the
backend does not signal more results, `pagingRequired` is false and
`renderFooter` renders no page window. -/
theorem c8_no_paging_when_results_fit (pagingMax size total : Int) (hits : List SearchHit)
    (h : total ≤ size) :
    pagingRequired 1 size (some ⟨hits, total, false⟩) = false ∧
    renderFooter 1 pagingMax size (some ⟨hits, total, false⟩) = none := by
  have hreq : pagingRequired 1 size (some ⟨hits, total, false⟩) = false := by
    simp only [pagingRequired, Option.map_some', Option.getD_some, Bool.false_or,
      decide_eq_false_iff_not, not_lt]
    omega
  exact ⟨hreq, by simp [renderFooter, hreq]⟩

/-- Witness for C8 at `size = 10`, `total = 7`, `pagingMax = 7`. -/
theorem c8_no_paging_when_results_fit_witness :
    pagingRequired 1 10 (some ⟨[], 7, false⟩) = false ∧
    renderFooter 1 7 10 (some ⟨[], 7, false⟩) = none :=
  c8_no_paging_when_results_fit 7 10 7 [] (by decide)

/-- **C9**: the cache key is `JSON.stringify({endpoint, requestOptions})`
with `endpoint = version + '/search/query'`, and the key builder is
deterministic: two states producing the same (identically ordered)
request-options object and the same version produce identical keys. -/
theorem c9_cache_key_deterministic (s1 s2 : RequestState)
    (hv : s1.version = s2.version)
    (hopts : getRequestOptions s1 = getRequestOptions s2) :
    buildCacheKey s1 = buildCacheKey s2 ∧
    buildCacheKey s1 = Json.serialize (Json.obj
      [("endpoint", Json.str (s1.version ++ SEARCH_ENDPOINT)),
       ("requestOptions", getRequestOptions s1)]) := by
  refine ⟨?_, rfl⟩
  unfold buildCacheKey
  rw [hv, hopts]

/-- Witness for C9 at a concrete request state. -/
theorem c9_cache_key_deterministic_witness :
    buildCacheKey exRequestState = Json.serialize (Json.obj
      [("endpoint", Json.str (exRequestState.version ++ SEARCH_ENDPOINT)),
       ("requestOptions", getRequestOptions exRequestState)]) :=
  (c9_cache_key_deterministic exRequestState exRequestState rfl rfl).2

/-- **C10**: assigning to the `queryString` property with a different
value stores the value, resets `currentPage` to 1, sets the loading
state and triggers a reload; assigning the current value leaves the
state unchanged and triggers nothing. -/
theorem c10_queryString_setter (st : QueryState) (v : Option String) :
    (st.queryString ≠ v →
      setQueryString st v =
        { state := { queryString := v, currentPage := 1 }
          loadingSet := true, reloadTriggered := true }) ∧
    (st.queryString = v →
      setQueryString st v = { state := st, loadingSet := false, reloadTriggered := false }) := by
  constructor
  · intro h; simp [setQueryString, h]
  · intro h; simp [setQueryString, h]

/-- Witness for C10: a changed assignment resets the page and reloads; a
same-value assignment is a no-op. -/
theorem c10_queryString_setter_witness :
    setQueryString ⟨some "alpha", 5⟩ (some "beta") =
      { state := { queryString := some "beta", currentPage := 1 }
        loadingSet := true, reloadTriggered := true } ∧
    setQueryString ⟨some "alpha", 5⟩ (some "alpha") =
      { state := ⟨some "alpha", 5⟩, loadingSet := false, reloadTriggered := false } :=
  ⟨(c10_queryString_setter ⟨some "alpha", 5⟩ (some "beta")).1 (by decide),
   (c10_queryString_setter ⟨some "alpha", 5⟩ (some "alpha")).2 rfl⟩

/-- **C2**: under cache retrieval conditions, with a cache entry present
and deserializable, the cached response is used (no fetch) if and only
if `now - timeCached` is strictly below the effective invalidation
period (the component period, falling back to the global response
period, then the global default); once `now - timeCached` reaches the
period, the entry is ignored and the primary fetch executes. -/
theorem c2_cache_entry_used_iff_fresh (s : SearchState) (env : LoadEnv)
    (q : String) (entry : CacheEntry) (r : Response)
    (hsign : env.signedIn = true) (hq : s.queryString = some q) (hq' : q ≠ "")
    (hret : shouldRetrieveCache env.cfg s.cacheEnabled s.isRefreshing = true)
    (hc : env.cached = some entry) (hp : env.parse entry.response = .ok r) :
    (((loadState s env).fetchCount = 0 ∧ (loadState s env).response = some r) ↔
      env.now - entry.timeCached <
        getResponseInvalidationTime s.cacheInvalidationPeriod env.cfg) ∧
    (getResponseInvalidationTime s.cacheInvalidationPeriod env.cfg ≤
        env.now - entry.timeCached →
      (loadState s env).fetchCount = 1) := by
  have hen : getIsResponseCacheEnabled env.cfg = true := by
    unfold shouldRetrieveCache at hret
    simp only [Bool.and_eq_true] at hret
    exact hret.1.1
  by_cases hfresh : getResponseInvalidationTime s.cacheInvalidationPeriod env.cfg >
      env.now - entry.timeCached
  · have hload : loadState s env = ⟨some r, none, 0, false⟩ := by
      simp [loadState, consultCache, hsign, hq, hq', hret, hen, hc, hp, hfresh]
    rw [hload]
    exact ⟨by simpa using hfresh, fun hle => absurd hfresh (not_lt.mpr hle)⟩
  · have hcc : consultCache s env = .ok none := by
      simp [consultCache, hret, hen, hc, hfresh]
    have h1 : (loadState s env).fetchCount = 1 := by
      cases hf : env.fetch with
      | error e => simp [loadState, hsign, hq, hq', hcc, hf]
      | ok r0 =>
        cases hft : s.fetchThumbnail with
        | false => simp [loadState, hsign, hq, hq', hcc, hf, hft]
        | true =>
          cases ht : thumbnailPhase r0 env with
          | error e => simp [loadState, hsign, hq, hq', hcc, hf, hft, ht]
          | ok r1 => simp [loadState, hsign, hq, hq', hcc, hf, hft, ht]
    refine ⟨⟨fun h0 => ?_, fun hlt => absurd hlt hfresh⟩, fun _ => h1⟩
    rw [h1] at h0
    exact absurd h0.1 one_ne_zero

/-- Witness for C2: with a 20000 ms old entry and a 30000 ms period the
cached response is served without fetching. -/
theorem c2_cache_entry_used_iff_fresh_witness :
    (loadState exState exEnv).fetchCount = 0 ∧
    (loadState exState exEnv).response = some exParsed :=
  (c2_cache_entry_used_iff_fresh exState exEnv "q" exEntry exParsed
    rfl rfl (by decide) rfl rfl rfl).1.mpr (by decide)

/-- **C4** counterexample: with a fresh cache entry whose payload fails
to deserialize (`JSON.parse` throws) and no previous response, the
`catch`-all of `loadState` stores the failure as the component error
state and the primary fetch does *not* execute — so a deserialize
failure is not treated like a cache miss. -/
theorem c4_parse_failure_not_miss_cex :
    (loadState exState exEnvParseFail).fetchCount = 0 ∧
    (loadState exState exEnvParseFail).error = some () := by decide

/-- **C4** (amended): a cache read whose deserialization throws is
caught by `loadState`'s catch-all: the fetch path does not execute in
that run, the response is left unchanged, and the failure is surfaced
as the component error state unless a previous response exists (in
which case the error is cleared by the post-catch reset). -/
theorem c4_parse_failure_handling (s : SearchState) (env : LoadEnv)
    (q : String) (entry : CacheEntry) (e : Unit)
    (hsign : env.signedIn = true) (hq : s.queryString = some q) (hq' : q ≠ "")
    (hret : shouldRetrieveCache env.cfg s.cacheEnabled s.isRefreshing = true)
    (hc : env.cached = some entry)
    (hfresh : env.now - entry.timeCached <
      getResponseInvalidationTime s.cacheInvalidationPeriod env.cfg)
    (hp : env.parse entry.response = .error e) :
    loadState s env =
      { response := s.response
        error := if s.response.isSome then none else some e
        fetchCount := 0, cacheWritten := false } := by
  have hen : getIsResponseCacheEnabled env.cfg = true := by
    unfold shouldRetrieveCache at hret
    simp only [Bool.and_eq_true] at hret
    exact hret.1.1
  have hcc : consultCache s env = .error e := by
    simp [consultCache, hret, hen, hc, hp, hfresh]
  simp [loadState, hsign, hq, hq', hcc]

/-- Witness for the amended C4 at the concrete parse-failure fixture. -/
theorem c4_parse_failure_handling_witness :
    loadState exState exEnvParseFail =
      { response := none, error := some (), fetchCount := 0, cacheWritten := false } := by
  have h := c4_parse_failure_handling exState exEnvParseFail "q" exEntry ()
    rfl rfl (by decide) (by decide) rfl (by decide) rfl
  simpa [exState] using h

/-- **C7** counterexample: when the primary request throws while a
previous response is present, the post-catch reset
`if (this.response) this.error = null` clears the error — the failure
is *not* surfaced as the component error state. -/
theorem c7_fetch_failure_error_cleared_cex :
    (loadState exStateWithPrior exEnvFetchFail).fetchCount = 1 ∧
    (loadState exStateWithPrior exEnvFetchFail).error = none := by decide

/-- **C7** (amended): a primary-fetch failure is captured by the
catch-all (never rethrown), the request is posted exactly once (no
retry), the response is left unchanged, and the exception is surfaced
as the component error state only when no previous response exists —
otherwise the post-catch reset clears it. -/
theorem c7_fetch_failure_handling (s : SearchState) (env : LoadEnv) (q : String) (e : Unit)
    (hsign : env.signedIn = true) (hq : s.queryString = some q) (hq' : q ≠ "")
    (hcc : consultCache s env = .ok none)
    (hf : env.fetch = .error e) :
    loadState s env =
      { response := s.response
        error := if s.response.isSome then none else some e
        fetchCount := 1, cacheWritten := false } := by
  simp [loadState, hsign, hq, hq', hcc, hf]

/-- Witness for the amended C7: no previous response, cache disabled,
failing fetch — the error is surfaced and the fetch ran once. -/
theorem c7_fetch_failure_handling_witness :
    loadState exStateNoCache exEnvFetchFail =
      { response := none, error := some (), fetchCount := 1, cacheWritten := false } := by
  have h := c7_fetch_failure_handling exStateNoCache exEnvFetchFail "q" ()
    rfl rfl (by decide) rfl rfl
  simpa [exStateNoCache, exState] using h

/-- **C3** counterexample: fetch succeeds with two eligible hits, the
v1.0 thumbnail batch resolves for index 0 and the beta batch throws.
The failure indeed does not propagate (`error = none`), but the primary
hits array is *not* left unmodified: the v1.0 augmentation of hit 0
survives the beta failure. -/
theorem c3_beta_failure_keeps_v1_thumbnails_cex :
    (loadState exStateThumb exEnvThumb).error = none ∧
    (loadState exStateThumb exEnvThumb).response ≠ some exRespHits ∧
    (loadState exStateThumb exEnvThumb).response =
      some (exRespHits.setFirstHits [applyThumb ⟨exDriveResource⟩ exContent, ⟨exListResource⟩]) := by
  decide

/-- **C3** (amended): a thumbnail-batch failure is swallowed and never
reaches the caller of `loadState` (the error state stays `null` and the
fetched response is committed); if the v1.0 batch throws the hits are
left fully unmodified, while if only the beta batch throws the hits
keep exactly the v1.0 augmentations. -/
theorem c3_batch_failure_swallowed (hits : List SearchHit) (e : Unit)
    (betaRes : Except Unit (List (Nat × BatchContent))) (m1 : List (Nat × BatchContent))
    (s : SearchState) (env : LoadEnv) (q : String) (r0 : Response) (hits0 : List SearchHit)
    (hsign : env.signedIn = true) (hq : s.queryString = some q) (hq' : q ≠ "")
    (hcc : consultCache s env = .ok none) (hf : env.fetch = .ok r0)
    (hft : s.fetchThumbnail = true) (hh : r0.firstHits? = some hits0) :
    tryBatches hits (Except.error e) betaRes = hits ∧
    tryBatches hits (Except.ok m1) (Except.error e) = augmentResponse m1 hits ∧
    (loadState s env).error = none ∧
    (loadState s env).response =
      some (r0.setFirstHits (tryBatches hits0 env.v1Batch env.betaBatch)) := by
  have htp : thumbnailPhase r0 env =
      .ok (r0.setFirstHits (tryBatches hits0 env.v1Batch env.betaBatch)) := by
    simp [thumbnailPhase, hh]
  refine ⟨rfl, rfl, ?_, ?_⟩
  · simp [loadState, hsign, hq, hq', hcc, hf, hft, htp]
  · simp [loadState, hsign, hq, hq', hcc, hf, hft, htp]

/-- Witness for the amended C3 at the fixture where the beta batch
throws after the v1.0 batch resolved. -/
theorem c3_batch_failure_swallowed_witness :
    (loadState exStateThumb exEnvThumb).error = none ∧
    (loadState exStateThumb exEnvThumb).response =
      some (exRespHits.setFirstHits
        (tryBatches exHits2 (Except.ok [(0, exContent)]) (Except.error ()))) := by
  have h := c3_batch_failure_swallowed [] () (Except.ok []) [] exStateThumb exEnvThumb
    "q" exRespHits exHits2 rfl rfl (by decide) rfl rfl rfl rfl
  exact ⟨h.2.2.1, h.2.2.2⟩

/-- Helper: every event recorded by the augmentation fold is either
carried over from the accumulator or a mutation at a key of the batch
response. -/
theorem foldl_augment_events (m : List (Nat × BatchContent)) :
    ∀ (hs : List SearchHit) (evs : List BatchEv) (ev : BatchEv),
      ev ∈ (m.foldl (fun acc kc =>
        (setThumbnail acc.1 kc.1 kc.2,
         acc.2 ++ if kc.1 < acc.1.length then [BatchEv.mutate kc.1] else [])) (hs, evs)).2 →
      ev ∈ evs ∨ ∃ k, ev = BatchEv.mutate k ∧ k ∈ m.map Prod.fst := by
  induction m with
  | nil =>
    intro hs evs ev h
    exact Or.inl (by simpa using h)
  | cons kc rest ih =>
    intro hs evs ev h
    rw [List.foldl_cons] at h
    rcases ih _ _ ev h with h' | ⟨k, hk, hm⟩
    · rcases List.mem_append.mp h' with h'' | h''
      · exact Or.inl h''
      · by_cases hlt : kc.1 < hs.length
        · rw [if_pos hlt] at h''
          refine Or.inr ⟨kc.1, by simpa using h'', by simp⟩
        · rw [if_neg hlt] at h''
          simp at h''
    · exact Or.inr ⟨k, hk, by simp [hm]⟩

/-- Helper: every event emitted by `augmentResponseEv` is a mutation at
a key of the batch response. -/
theorem mem_augmentResponseEv_events (m : List (Nat × BatchContent)) (hits : List SearchHit) :
    ∀ ev ∈ (augmentResponseEv m hits).2,
      ∃ k, ev = BatchEv.mutate k ∧ k ∈ m.map Prod.fst := by
  intro ev h
  unfold augmentResponseEv at h
  by_cases hm : m.isEmpty
  · rw [if_pos hm] at h
    simp at h
  · rw [if_neg hm] at h
    rcases foldl_augment_events m hits [] ev h with h' | hx
    · simp at h'
    · exact hx

/-- **C5** counterexample: with one v1.0-batch hit and one beta-batch
hit, both batches succeeding, the thumbnail phase's event trace is
`[resolveV1, mutate 0, resolveBeta, mutate 1]`: hit 0 is mutated after
the v1.0 batch resolves but *before* the beta batch resolves, so it is
false that no hit is mutated while either batch is still pending. -/
theorem c5_mutation_before_beta_resolve_cex :
    (tryBatchesTrace exHits2 (Except.ok [(0, exContent)])
        (Except.ok [(1, exContentBeta)])).2 =
      [BatchEv.resolveV1, BatchEv.mutate 0, BatchEv.resolveBeta, BatchEv.mutate 1] ∧
    allResolvesBeforeMutations
      (tryBatchesTrace exHits2 (Except.ok [(0, exContent)])
        (Except.ok [(1, exContentBeta)])).2 = false := by
  decide

/-- **C5** (amended): the two batches are awaited sequentially and each
batch's augmentation is applied as soon as that batch resolves: the
trace is `resolveV1`, then only mutations at v1.0-batch keys, then
`resolveBeta`, then only mutations at beta-batch keys.  In particular
no hit is mutated before the v1.0 batch resolves, and beta-batch
mutations happen after both batches resolve — but v1.0-batch mutations
precede the beta batch's resolution. -/
theorem c5_sequential_batch_trace (hits : List SearchHit)
    (m1 m2 : List (Nat × BatchContent)) :
    (tryBatchesTrace hits (Except.ok m1) (Except.ok m2)).2 =
      BatchEv.resolveV1 :: (augmentResponseEv m1 hits).2 ++
        BatchEv.resolveBeta :: (augmentResponseEv m2 (augmentResponseEv m1 hits).1).2 ∧
    (∀ ev ∈ (augmentResponseEv m1 hits).2,
      ∃ k, ev = BatchEv.mutate k ∧ k ∈ m1.map Prod.fst) ∧
    (∀ ev ∈ (augmentResponseEv m2 (augmentResponseEv m1 hits).1).2,
      ∃ k, ev = BatchEv.mutate k ∧ k ∈ m2.map Prod.fst) := by
  refine ⟨?_, mem_augmentResponseEv_events m1 hits,
    mem_augmentResponseEv_events m2 (augmentResponseEv m1 hits).1⟩
  simp [tryBatchesTrace]

/-- Witness for the amended C5 at the two-hit fixture. -/
theorem c5_sequential_batch_trace_witness :
    (tryBatchesTrace exHits2 (Except.ok [(0, exContent)])
        (Except.ok [(1, exContentBeta)])).2 =
      BatchEv.resolveV1 :: (augmentResponseEv [(0, exContent)] exHits2).2 ++
        BatchEv.resolveBeta ::
          (augmentResponseEv [(1, exContentBeta)]
            (augmentResponseEv [(0, exContent)] exHits2).1).2 :=
  (c5_sequential_batch_trace exHits2 [(0, exContent)] [(1, exContentBeta)]).1

/-- Helper: `setThumbnail` leaves positions other than its key unchanged. -/
theorem setThumbnail_getElem?_ne (hs : List SearchHit) (k : Nat) (c : BatchContent)
    (i : Nat) (hne : k ≠ i) : (setThumbnail hs k c)[i]? = hs[i]? := by
  unfold setThumbnail
  cases hk : hs[k]? with
  | none => rfl
  | some hit => exact List.getElem?_set_ne hne

/-- Helper: `setThumbnail` at an occupied key stores the augmented hit. -/
theorem setThumbnail_getElem?_self (hs : List SearchHit) (k : Nat) (c : BatchContent)
    (h : SearchHit) (hget : hs[k]? = some h) :
    (setThumbnail hs k c)[k]? = some (applyThumb h c) := by
  have hk : k < hs.length := (List.getElem?_eq_some_iff.mp hget).1
  simp [setThumbnail, hget, applyThumb, List.getElem?_set_self hk]

/-- Helper: the augmentation fold leaves every index outside the
response keys unchanged. -/
theorem foldl_setThumbnail_getElem?_not_mem (m : List (Nat × BatchContent)) :
    ∀ (hs : List SearchHit) (i : Nat), (∀ kc ∈ m, kc.1 ≠ i) →
      (m.foldl (fun hs kc => setThumbnail hs kc.1 kc.2) hs)[i]? = hs[i]? := by
  induction m with
  | nil => intro hs i _; rfl
  | cons kc t ih =>
    intro hs i hn
    rw [List.foldl_cons, ih _ i fun kc' h' => hn kc' (List.mem_cons_of_mem _ h'),
      setThumbnail_getElem?_ne hs kc.1 kc.2 i (hn kc (List.mem_cons_self _ _))]

/-- Helper: with pairwise-distinct keys, the augmentation fold stores
the augmented hit at each response key. -/
theorem foldl_setThumbnail_getElem?_mem (m : List (Nat × BatchContent)) :
    ∀ (hs : List SearchHit) (i : Nat) (c : BatchContent) (h : SearchHit),
      (m.map Prod.fst).Nodup → (i, c) ∈ m → hs[i]? = some h →
      (m.foldl (fun hs kc => setThumbnail hs kc.1 kc.2) hs)[i]? = some (applyThumb h c) := by
  induction m with
  | nil => intro hs i c h _ hmem _; exact absurd hmem (List.not_mem_nil _)
  | cons kc t ih =>
    intro hs i c h hnd hmem hget
    rw [List.map_cons, List.nodup_cons] at hnd
    rw [List.foldl_cons]
    rcases List.mem_cons.mp hmem with heq | hmem'
    · subst heq
      have hkeys : ∀ kc' ∈ t, kc'.1 ≠ i :=
        fun kc' h' hEq => hnd.1 (List.mem_map.mpr ⟨kc', h', hEq⟩)
      rw [foldl_setThumbnail_getElem?_not_mem t _ i hkeys]
      exact setThumbnail_getElem?_self hs i c h hget
    · have hne : kc.1 ≠ i := fun hEq =>
        hnd.1 (by rw [hEq]; exact List.mem_map.mpr ⟨(i, c), hmem', rfl⟩)
      exact ih _ i c h hnd.2 hmem'
        (by rw [setThumbnail_getElem?_ne hs kc.1 kc.2 i hne]; exact hget)

/-- Helper: `augmentResponse` is the plain fold (the empty-map guard of
the source is a no-op on the empty fold). -/
theorem augmentResponse_eq_foldl (m : List (Nat × BatchContent)) (hs : List SearchHit) :
    augmentResponse m hs = m.foldl (fun hs kc => setThumbnail hs kc.1 kc.2) hs := by
  cases m with
  | nil => rfl
  | cons kc t => rfl

/-- Helper: when both batch executions succeed, the `try` block merges
the v1.0 response and then the beta response. -/
theorem tryBatches_ok_ok (hits : List SearchHit) (m1 m2 : List (Nat × BatchContent)) :
    tryBatches hits (Except.ok m1) (Except.ok m2) =
      augmentResponse m2 (augmentResponse m1 hits) := rfl

/-- Helper: an index carries a v1.0-batch request exactly when its hit
is eligible and not a list item. -/
theorem mem_v1_keys (hits : List SearchHit) (i : Nat) :
    i ∈ (buildThumbnailBatches hits).1.map Prod.fst ↔
      ∃ h, hits[i]? = some h ∧ eligibleForThumbnail h.resource = true ∧
        isListItem h.resource = false := by
  constructor
  · intro hi
    rcases List.mem_map.mp hi with ⟨q, hq, rfl⟩
    rcases List.mem_filterMap.mp hq with ⟨p, hp, hf⟩
    by_cases hc : (eligibleForThumbnail p.2.resource && !isListItem p.2.resource) = true
    · rw [if_pos hc] at hf
      injection hf with hf'
      subst hf'
      refine ⟨p.2, List.mem_enum_iff_getElem?.mp hp, (Bool.and_eq_true_iff.mp hc).1, ?_⟩
      simpa using (Bool.and_eq_true_iff.mp hc).2
    · rw [if_neg hc] at hf
      cases hf
  · rintro ⟨h, hget, helig, hlist⟩
    refine List.mem_map.mpr ⟨(i, "/drives/" ++ h.resource.parentDriveId ++ "/items/" ++
      h.resource.id ++ "/thumbnails/0/medium"),
      List.mem_filterMap.mpr ⟨(i, h), List.mem_enum_iff_getElem?.mpr hget, ?_⟩, rfl⟩
    simp [helig, hlist]

/-- Helper: an index carries a beta-batch request exactly when its hit
is an eligible list item. -/
theorem mem_beta_keys (hits : List SearchHit) (i : Nat) :
    i ∈ (buildThumbnailBatches hits).2.map Prod.fst ↔
      ∃ h, hits[i]? = some h ∧ eligibleForThumbnail h.resource = true ∧
        isListItem h.resource = true := by
  constructor
  · intro hi
    rcases List.mem_map.mp hi with ⟨q, hq, rfl⟩
    rcases List.mem_filterMap.mp hq with ⟨p, hp, hf⟩
    by_cases hc : (eligibleForThumbnail p.2.resource && isListItem p.2.resource) = true
    · rw [if_pos hc] at hf
      injection hf with hf'
      subst hf'
      exact ⟨p.2, List.mem_enum_iff_getElem?.mp hp, (Bool.and_eq_true_iff.mp hc).1,
        (Bool.and_eq_true_iff.mp hc).2⟩
    · rw [if_neg hc] at hf
      cases hf
  · rintro ⟨h, hget, helig, hlist⟩
    refine List.mem_map.mpr ⟨(i, "/sites/" ++ h.resource.parentSiteId ++ "/pages/" ++
      h.resource.id),
      List.mem_filterMap.mpr ⟨(i, h), List.mem_enum_iff_getElem?.mpr hget, ?_⟩, rfl⟩
    simp [helig, hlist]

/-- Helper: the key list of a batch built over the enumerated hits is a
sublist of the index list, provided the builder keeps each index. -/
theorem keys_sublist_of_fst_preserving (f : Nat × SearchHit → Option (Nat × String))
    (hf : ∀ p q, f p = some q → q.1 = p.1) :
    ∀ l : List (Nat × SearchHit),
      List.Sublist ((l.filterMap f).map Prod.fst) (l.map Prod.fst) := by
  intro l
  induction l with
  | nil => simp
  | cons p t ih =>
    rw [List.filterMap_cons]
    cases hfp : f p with
    | none =>
      rw [List.map_cons]
      exact ih.trans (List.sublist_cons_self _ _)
    | some q =>
      rw [List.map_cons, List.map_cons, hf p q hfp]
      exact List.cons_sublist_cons.mpr ih

/-- Helper: the v1.0 batch keys are pairwise distinct. -/
theorem v1_keys_nodup (hits : List SearchHit) :
    ((buildThumbnailBatches hits).1.map Prod.fst).Nodup := by
  refine List.Sublist.nodup
    (keys_sublist_of_fst_preserving _ ?_ hits.enum) ?_
  · intro p q hq
    by_cases hc : (eligibleForThumbnail p.2.resource && !isListItem p.2.resource) = true
    · rw [if_pos hc] at hq
      injection hq with hq'
      rw [← hq']
    · rw [if_neg hc] at hq
      cases hq
  · rw [List.enum_map_fst]
    exact List.nodup_range _

/-- Helper: the beta batch keys are pairwise distinct. -/
theorem beta_keys_nodup (hits : List SearchHit) :
    ((buildThumbnailBatches hits).2.map Prod.fst).Nodup := by
  refine List.Sublist.nodup
    (keys_sublist_of_fst_preserving _ ?_ hits.enum) ?_
  · intro p q hq
    by_cases hc : (eligibleForThumbnail p.2.resource && isListItem p.2.resource) = true
    · rw [if_pos hc] at hq
      injection hq with hq'
      rw [← hq']
    · rw [if_neg hc] at hq
      cases hq
  · rw [List.enum_map_fst]
    exact List.nodup_range _

/-- Helper: no index carries both a v1.0-batch and a beta-batch request. -/
theorem v1_beta_keys_disjoint (hits : List SearchHit) (i : Nat)
    (h1 : i ∈ (buildThumbnailBatches hits).1.map Prod.fst)
    (h2 : i ∈ (buildThumbnailBatches hits).2.map Prod.fst) : False := by
  rcases (mem_v1_keys hits i).mp h1 with ⟨h, hget, _, hlist⟩
  rcases (mem_beta_keys hits i).mp h2 with ⟨h', hget', _, hlist'⟩
  rw [hget] at hget'
  injection hget' with he
  subst he
  rw [hlist] at hlist'
  cases hlist'

/-- **C1**: with `fetchThumbnail` on, a dependent thumbnail request is
issued for a hit's index if and only if the hit's resource has
`size > 0` or a `.aspx` `webUrl`, and its `@odata.type` is
`driveItem` or `listItem`; when the batch responses (keyed exactly by
the issued indices) are merged, each requested index `i` receives the
batch-returned URL as `hits[i].resource.thumbnail`, and hits at
ineligible indices are left entirely unchanged. -/
theorem c1_thumbnail_requests_and_merge (hits : List SearchHit)
    (m1 m2 : List (Nat × BatchContent))
    (hm1 : m1.map Prod.fst = (buildThumbnailBatches hits).1.map Prod.fst)
    (hm2 : m2.map Prod.fst = (buildThumbnailBatches hits).2.map Prod.fst) :
    (∀ i : Nat, i ∈ requestedIndices hits ↔
      ∃ h : SearchHit, hits[i]? = some h ∧ eligibleForThumbnail h.resource = true) ∧
    (∀ (i : Nat) (h : SearchHit), hits[i]? = some h →
      eligibleForThumbnail h.resource = false →
      (tryBatches hits (Except.ok m1) (Except.ok m2))[i]? = some h) ∧
    (∀ (i : Nat) (c : BatchContent), (i, c) ∈ m1 → ∃ h : SearchHit, hits[i]? = some h ∧
      (tryBatches hits (Except.ok m1) (Except.ok m2))[i]? = some (applyThumb h c)) ∧
    (∀ (i : Nat) (c : BatchContent), (i, c) ∈ m2 → ∃ h : SearchHit, hits[i]? = some h ∧
      (tryBatches hits (Except.ok m1) (Except.ok m2))[i]? = some (applyThumb h c)) := by
  have htb : tryBatches hits (Except.ok m1) (Except.ok m2) =
      augmentResponse m2 (augmentResponse m1 hits) := rfl
  refine ⟨?_, ?_, ?_, ?_⟩
  · intro i
    unfold requestedIndices
    rw [List.mem_append]
    constructor
    · rintro (h1 | h2)
      · rcases (mem_v1_keys hits i).mp h1 with ⟨h, hget, helig, _⟩
        exact ⟨h, hget, helig⟩
      · rcases (mem_beta_keys hits i).mp h2 with ⟨h, hget, helig, _⟩
        exact ⟨h, hget, helig⟩
    · rintro ⟨h, hget, helig⟩
      cases hli : isListItem h.resource with
      | false => exact Or.inl ((mem_v1_keys hits i).mpr ⟨h, hget, helig, hli⟩)
      | true => exact Or.inr ((mem_beta_keys hits i).mpr ⟨h, hget, helig, hli⟩)
  · intro i h hget helig
    have hn1 : ∀ kc ∈ m1, kc.1 ≠ i := by
      intro kc hkc hEq
      have hi : i ∈ m1.map Prod.fst := List.mem_map.mpr ⟨kc, hkc, hEq⟩
      rw [hm1] at hi
      rcases (mem_v1_keys hits i).mp hi with ⟨h', hget', helig', _⟩
      rw [hget] at hget'
      injection hget' with he
      subst he
      rw [helig] at helig'
      cases helig'
    have hn2 : ∀ kc ∈ m2, kc.1 ≠ i := by
      intro kc hkc hEq
      have hi : i ∈ m2.map Prod.fst := List.mem_map.mpr ⟨kc, hkc, hEq⟩
      rw [hm2] at hi
      rcases (mem_beta_keys hits i).mp hi with ⟨h', hget', helig', _⟩
      rw [hget] at hget'
      injection hget' with he
      subst he
      rw [helig] at helig'
      cases helig'
    rw [htb, augmentResponse_eq_foldl, augmentResponse_eq_foldl,
      foldl_setThumbnail_getElem?_not_mem m2 _ i hn2,
      foldl_setThumbnail_getElem?_not_mem m1 _ i hn1]
    exact hget
  · intro i c hmem
    have hv1 : i ∈ (buildThumbnailBatches hits).1.map Prod.fst := by
      rw [← hm1]
      exact List.mem_map.mpr ⟨(i, c), hmem, rfl⟩
    rcases (mem_v1_keys hits i).mp hv1 with ⟨h, hget, helig, hlist⟩
    refine ⟨h, hget, ?_⟩
    have hnd1 : (m1.map Prod.fst).Nodup := by
      rw [hm1]
      exact v1_keys_nodup hits
    have hn2 : ∀ kc ∈ m2, kc.1 ≠ i := by
      intro kc hkc hEq
      have hi : i ∈ m2.map Prod.fst := List.mem_map.mpr ⟨kc, hkc, hEq⟩
      rw [hm2] at hi
      exact v1_beta_keys_disjoint hits i hv1 hi
    rw [htb, augmentResponse_eq_foldl, augmentResponse_eq_foldl,
      foldl_setThumbnail_getElem?_not_mem m2 _ i hn2]
    exact foldl_setThumbnail_getElem?_mem m1 hits i c h hnd1 hmem hget
  · intro i c hmem
    have hbeta : i ∈ (buildThumbnailBatches hits).2.map Prod.fst := by
      rw [← hm2]
      exact List.mem_map.mpr ⟨(i, c), hmem, rfl⟩
    rcases (mem_beta_keys hits i).mp hbeta with ⟨h, hget, helig, hlist⟩
    refine ⟨h, hget, ?_⟩
    have hnd2 : (m2.map Prod.fst).Nodup := by
      rw [hm2]
      exact beta_keys_nodup hits
    have hn1 : ∀ kc ∈ m1, kc.1 ≠ i := by
      intro kc hkc hEq
      have hi : i ∈ m1.map Prod.fst := List.mem_map.mpr ⟨kc, hkc, hEq⟩
      rw [hm1] at hi
      exact v1_beta_keys_disjoint hits i hi hbeta
    rw [htb, augmentResponse_eq_foldl, augmentResponse_eq_foldl]
    refine foldl_setThumbnail_getElem?_mem m2 _ i c h hnd2 hmem ?_
    rw [foldl_setThumbnail_getElem?_not_mem m1 hits i hn1]
    exact hget

/-- Witness for C1 on the spec's example: hits 0 and 1 unsupported,
hit 2 a supported drive item — exactly index 2 carries a request, hit 2
receives the batch URL, hit 0 stays untouched. -/
theorem c1_thumbnail_requests_and_merge_witness :
    ((2 : Nat) ∈ requestedIndices exHits) ∧
    ¬ ((0 : Nat) ∈ requestedIndices exHits) ∧
    (tryBatches exHits (Except.ok [(2, exContent)]) (Except.ok []))[2]? =
      some (applyThumb ⟨exDriveResource⟩ exContent) ∧
    (tryBatches exHits (Except.ok [(2, exContent)]) (Except.ok []))[0]? =
      some ⟨exSiteResource⟩ := by
  have h := c1_thumbnail_requests_and_merge exHits [(2, exContent)] []
    (by decide) (by decide)
  refine ⟨?_, ?_, ?_, ?_⟩
  · exact (h.1 2).mpr ⟨⟨exDriveResource⟩, rfl, by decide⟩
  · intro hmem
    rcases (h.1 0).mp hmem with ⟨hh, hget, helig⟩
    rw [show exHits[0]? = some (⟨exSiteResource⟩ : SearchHit) from rfl] at hget
    injection hget with he
    rw [← he] at helig
    exact absurd helig (by decide)
  · rcases h.2.2.1 2 exContent (List.mem_singleton.mpr rfl) with ⟨hh, hget, hres⟩
    rw [show exHits[2]? = some (⟨exDriveResource⟩ : SearchHit) from rfl] at hget
    injection hget with he
    rw [← he] at hres
    exact hres
  · exact h.2.1 0 ⟨exSiteResource⟩ rfl (by decide)
